import Mathlib

/-!
Verification of the XSPEC local-model function registry declared in
`src/share/xspec/install/functionMap.h`.

The header declares the global map `ModelFunctionMap XSFunctionMap`, the
lifecycle functions `createFunctionMap` / `clearFunctionMap`, and the fixed
compiled-in list of model routine declarations, each with one of three
calling-convention types (`XSCCall`, `xsf77Call`, `xsccCall`).  The list of
(name, kind) pairs below is embedded verbatim from the header.  The bodies of
`createFunctionMap` / `clearFunctionMap` and of lookup/dispatch on
`XSFunctionMap` are not part of the available source (only their declarations
are); those operations are modelled from the spec, as noted on each
definition.
-/

namespace FunctionMap

/-- The three calling-convention families declared in `functionMap.h`:
`XSCCall`, `xsf77Call` and `xsccCall`. -/
inductive SigKind where
  | XSCCall
  | xsf77Call
  | xsccCall
deriving DecidableEq, Repr

/-- A registry entry: model name, signature kind, and the opaque handle to the
underlying routine (modelled as the declared identifier, which is what the
header binds). -/
structure RegistryEntry where
  name : String
  kind : SigKind
  handle : String
deriving DecidableEq, Repr

/-- The fixed compiled-in list of (name, kind) pairs, embedded verbatim from
the `extern "C"` block of `functionMap.h` (lines 22-240), in declaration
order. -/
def fixedList : List (String × SigKind) := [
  ("agauss", SigKind.XSCCall),
  ("agnsed_", SigKind.xsf77Call),
  ("apec", SigKind.XSCCall),
  ("bapec", SigKind.XSCCall),
  ("btapec", SigKind.XSCCall),
  ("xsblbd_", SigKind.xsf77Call),
  ("xsbbrd_", SigKind.xsf77Call),
  ("xsbexrav", SigKind.XSCCall),
  ("xsbexriv", SigKind.XSCCall),
  ("brokenPowerLaw", SigKind.XSCCall),
  ("broken2PowerLaw", SigKind.XSCCall),
  ("xsbmc_", SigKind.xsf77Call),
  ("xsbrms_", SigKind.xsf77Call),
  ("brnei", SigKind.XSCCall),
  ("bvapec", SigKind.XSCCall),
  ("bvrnei", SigKind.XSCCall),
  ("bvtapec", SigKind.XSCCall),
  ("bvvapec", SigKind.XSCCall),
  ("bvvrnei", SigKind.XSCCall),
  ("bvvtapec", SigKind.XSCCall),
  ("c6mekl", SigKind.XSCCall),
  ("c6pmekl", SigKind.XSCCall),
  ("c6pvmkl", SigKind.XSCCall),
  ("c6vmekl", SigKind.XSCCall),
  ("carbatm", SigKind.XSCCall),
  ("cemekl_", SigKind.xsf77Call),
  ("cemVMekal", SigKind.XSCCall),
  ("xscflw", SigKind.XSCCall),
  ("compbb_", SigKind.xsf77Call),
  ("xscompmag", SigKind.xsccCall),
  ("compls_", SigKind.xsf77Call),
  ("xscompps", SigKind.XSCCall),
  ("compst_", SigKind.xsf77Call),
  ("xscomptb", SigKind.xsccCall),
  ("xscompth", SigKind.XSCCall),
  ("xstitg_", SigKind.xsf77Call),
  ("cph", SigKind.XSCCall),
  ("cplinear", SigKind.XSCCall),
  ("cutoffPowerLaw", SigKind.XSCCall),
  ("disk_", SigKind.xsf77Call),
  ("diskir_", SigKind.xsf77Call),
  ("xsdskb_", SigKind.xsf77Call),
  ("diskline", SigKind.XSCCall),
  ("diskm_", SigKind.xsf77Call),
  ("disko_", SigKind.xsf77Call),
  ("diskpbb_", SigKind.xsf77Call),
  ("xsdiskpn_", SigKind.xsf77Call),
  ("eplogpar_", SigKind.xsf77Call),
  ("xseqpair", SigKind.XSCCall),
  ("xseqth", SigKind.XSCCall),
  ("equil", SigKind.XSCCall),
  ("xsxpdec_", SigKind.xsf77Call),
  ("ezdiskbb_", SigKind.xsf77Call),
  ("gaussianLine", SigKind.XSCCall),
  ("gaussDem", SigKind.XSCCall),
  ("gnei", SigKind.XSCCall),
  ("grad_", SigKind.xsf77Call),
  ("xsgrbcomp", SigKind.xsccCall),
  ("xsgrbm_", SigKind.xsf77Call),
  ("hatm", SigKind.XSCCall),
  ("jet_", SigKind.xsf77Call),
  ("kerrbb", SigKind.XSCCall),
  ("kerrd", SigKind.XSCCall),
  ("spin", SigKind.XSCCall),
  ("kyconv_", SigKind.xsf77Call),
  ("kyrline_", SigKind.xsf77Call),
  ("laor", SigKind.XSCCall),
  ("laor2", SigKind.XSCCall),
  ("logpar", SigKind.XSCCall),
  ("lorentzianLine", SigKind.XSCCall),
  ("meka", SigKind.XSCCall),
  ("mekal", SigKind.XSCCall),
  ("xsmkcf", SigKind.XSCCall),
  ("nei", SigKind.XSCCall),
  ("nlapec", SigKind.XSCCall),
  ("npshock", SigKind.XSCCall),
  ("nsa_", SigKind.xsf77Call),
  ("nsagrav_", SigKind.xsf77Call),
  ("nsatmos_", SigKind.xsf77Call),
  ("nsmax", SigKind.XSCCall),
  ("nsmaxg", SigKind.XSCCall),
  ("nsx", SigKind.XSCCall),
  ("xsnteea", SigKind.XSCCall),
  ("nthcomp", SigKind.XSCCall),
  ("optxagn_", SigKind.xsf77Call),
  ("optxagnf_", SigKind.xsf77Call),
  ("xspegp_", SigKind.xsf77Call),
  ("pexmon_", SigKind.xsf77Call),
  ("xspexrav", SigKind.XSCCall),
  ("xspexriv", SigKind.XSCCall),
  ("xsp1tr_", SigKind.xsf77Call),
  ("powerLaw", SigKind.XSCCall),
  ("xsposm_", SigKind.xsf77Call),
  ("pshock", SigKind.XSCCall),
  ("qsosed_", SigKind.xsf77Call),
  ("raysmith", SigKind.XSCCall),
  ("xredge_", SigKind.xsf77Call),
  ("xsrefsch_", SigKind.xsf77Call),
  ("rnei", SigKind.XSCCall),
  ("sedov", SigKind.XSCCall),
  ("sirf", SigKind.XSCCall),
  ("slimbbmodel", SigKind.xsccCall),
  ("xsmaug", SigKind.xsccCall),
  ("snapec", SigKind.XSCCall),
  ("srcut_", SigKind.xsf77Call),
  ("sresc_", SigKind.xsf77Call),
  ("ssa_", SigKind.xsf77Call),
  ("xsstep_", SigKind.xsf77Call),
  ("tapec", SigKind.XSCCall),
  ("vapec", SigKind.XSCCall),
  ("xsbrmv_", SigKind.xsf77Call),
  ("vcph", SigKind.XSCCall),
  ("vequil", SigKind.XSCCall),
  ("vgaussDem", SigKind.XSCCall),
  ("vgnei", SigKind.XSCCall),
  ("vmeka", SigKind.XSCCall),
  ("vmekal", SigKind.XSCCall),
  ("xsvmcf", SigKind.XSCCall),
  ("vnei", SigKind.XSCCall),
  ("vnpshock", SigKind.XSCCall),
  ("voigtLine", SigKind.XSCCall),
  ("vpshock", SigKind.XSCCall),
  ("vraysmith", SigKind.XSCCall),
  ("vrnei", SigKind.XSCCall),
  ("vsedov", SigKind.XSCCall),
  ("vtapec", SigKind.XSCCall),
  ("vvapec", SigKind.XSCCall),
  ("vvgnei", SigKind.XSCCall),
  ("vvnei", SigKind.XSCCall),
  ("vvnpshock", SigKind.XSCCall),
  ("vvpshock", SigKind.XSCCall),
  ("vvrnei", SigKind.XSCCall),
  ("vvsedov", SigKind.XSCCall),
  ("vvtapec", SigKind.XSCCall),
  ("zagauss", SigKind.XSCCall),
  ("xszbod_", SigKind.xsf77Call),
  ("zBrokenPowerLaw", SigKind.XSCCall),
  ("xszbrm_", SigKind.xsf77Call),
  ("zcutoffPowerLaw", SigKind.XSCCall),
  ("xszgau", SigKind.XSCCall),
  ("zLogpar", SigKind.XSCCall),
  ("zpowerLaw", SigKind.XSCCall),
  ("xsabsori", SigKind.XSCCall),
  ("acisabs", SigKind.XSCCall),
  ("xscnst_", SigKind.xsf77Call),
  ("xscabs_", SigKind.xsf77Call),
  ("xscycl_", SigKind.xsf77Call),
  ("xsdust_", SigKind.xsf77Call),
  ("xsedge_", SigKind.xsf77Call),
  ("xsabsc_", SigKind.xsf77Call),
  ("xsexp_", SigKind.xsf77Call),
  ("gaussianAbsorptionLine", SigKind.XSCCall),
  ("xsphei_", SigKind.xsf77Call),
  ("xshecu_", SigKind.xsf77Call),
  ("xshrfl_", SigKind.xsf77Call),
  ("ismabs_", SigKind.xsf77Call),
  ("xslyman_", SigKind.xsf77Call),
  ("xsntch_", SigKind.xsf77Call),
  ("xsabsp_", SigKind.xsf77Call),
  ("xsphab_", SigKind.xsf77Call),
  ("xsplab_", SigKind.xsf77Call),
  ("xspwab", SigKind.XSCCall),
  ("xscred_", SigKind.xsf77Call),
  ("xssmdg_", SigKind.xsf77Call),
  ("superExpCutoff", SigKind.XSCCall),
  ("xsspln_", SigKind.xsf77Call),
  ("xssssi_", SigKind.xsf77Call),
  ("swind1", SigKind.XSCCall),
  ("tbabs", SigKind.XSCCall),
  ("tbfeo", SigKind.XSCCall),
  ("tbgas", SigKind.XSCCall),
  ("tbgrain", SigKind.XSCCall),
  ("tbvabs", SigKind.XSCCall),
  ("tbpcf", SigKind.XSCCall),
  ("tbrel", SigKind.XSCCall),
  ("xsred_", SigKind.xsf77Call),
  ("xsabsv_", SigKind.xsf77Call),
  ("xsvphb_", SigKind.xsf77Call),
  ("xsabsw_", SigKind.xsf77Call),
  ("xswnab_", SigKind.xsf77Call),
  ("xsxirf_", SigKind.xsf77Call),
  ("xscatmodel", SigKind.XSCCall),
  ("xszbabs", SigKind.xsccCall),
  ("mszdst_", SigKind.xsf77Call),
  ("xszedg_", SigKind.xsf77Call),
  ("xszhcu_", SigKind.xsf77Call),
  ("zigm_", SigKind.xsf77Call),
  ("xszabp_", SigKind.xsf77Call),
  ("xszphb_", SigKind.xsf77Call),
  ("zxipcf", SigKind.XSCCall),
  ("xszcrd_", SigKind.xsf77Call),
  ("msldst_", SigKind.xsf77Call),
  ("ztbabs", SigKind.XSCCall),
  ("xszvab_", SigKind.xsf77Call),
  ("xszvfe_", SigKind.xsf77Call),
  ("xszvph_", SigKind.xsf77Call),
  ("xszabs_", SigKind.xsf77Call),
  ("xszwnb_", SigKind.xsf77Call),
  ("cflux", SigKind.XSCCall),
  ("clumin", SigKind.XSCCall),
  ("cpflux", SigKind.XSCCall),
  ("gsmooth", SigKind.XSCCall),
  ("ireflct", SigKind.XSCCall),
  ("kdblur", SigKind.XSCCall),
  ("kdblur2", SigKind.XSCCall),
  ("spinconv", SigKind.XSCCall),
  ("lsmooth", SigKind.XSCCall),
  ("PartialCovering", SigKind.XSCCall),
  ("rdblur", SigKind.XSCCall),
  ("reflct", SigKind.XSCCall),
  ("rfxconv", SigKind.XSCCall),
  ("rgsxsrc_", SigKind.xsf77Call),
  ("simpl", SigKind.XSCCall),
  ("vashift", SigKind.XSCCall),
  ("vmshift", SigKind.XSCCall),
  ("xilconv", SigKind.XSCCall),
  ("zashift", SigKind.XSCCall),
  ("zmshift", SigKind.XSCCall),
  ("pileup", SigKind.XSCCall)
]

/-- The fixed list as registry entries; the handle of each entry is the
declared identifier itself. -/
def fixedEntries : List RegistryEntry :=
  fixedList.map (fun p => { name := p.1, kind := p.2, handle := p.1 })

/-- The registry state: the contents of the global `XSFunctionMap`.  Modelled
as a list of entries (empty = uninitialized/cleared). -/
abbrev ModelFunctionMap := List RegistryEntry

/-- Errors that `createFunctionMap` (the build) can raise, from the spec's
error model. -/
inductive BuildError where
  | DuplicateRegistrationError
  | UnresolvedHandleError
deriving DecidableEq, Repr

/-- Error raised by lookup/dispatch for an unknown name. -/
inductive LookupError where
  | NotFoundError
deriving DecidableEq, Repr

/-- The call adapters, one per signature kind. -/
inductive CallAdapter where
  | cAdapter
  | f77Adapter
  | ccAdapter
deriving DecidableEq, Repr

/-- The adapter associated with each signature kind. -/
def adapterFor : SigKind → CallAdapter
  | SigKind.XSCCall => CallAdapter.cAdapter
  | SigKind.xsf77Call => CallAdapter.f77Adapter
  | SigKind.xsccCall => CallAdapter.ccAdapter

/-- Modelled from the spec: `createFunctionMap` (its body, in
`functionMap.cxx`, is not in the available source; only its declaration in
`functionMap.h` is).  Given the compiled-in list, it validates uniqueness of
names and, on success, produces the fully populated map; two entries sharing
a name make it fail with `DuplicateRegistrationError`.  Parametrised by the
compiled-in list so that the duplicate branch is statable. -/
def createFunctionMap (spec : List RegistryEntry) :
    Except BuildError ModelFunctionMap :=
  if (spec.map RegistryEntry.name).Nodup then Except.ok spec
  else Except.error BuildError.DuplicateRegistrationError

/-- The state transition of a `createFunctionMap` call on registry state `r`:
on success the new fully populated map replaces the state; on failure the
externally observable state is unchanged (all-or-nothing build, from the
spec). -/
def buildStep (spec : List RegistryEntry) (r : ModelFunctionMap) :
    ModelFunctionMap :=
  match createFunctionMap spec with
  | Except.ok r2 => r2
  | Except.error _ => r

/-- Modelled from the spec: `clearFunctionMap` (its body is not in the
available source).  Removes all entries, returning the registry to empty. -/
def clearFunctionMap (_r : ModelFunctionMap) : ModelFunctionMap := []

/-- A name is registered when some entry of the map carries it. -/
def registered (r : ModelFunctionMap) (n : String) : Prop :=
  ∃ e ∈ r, e.name = n

instance (r : ModelFunctionMap) (n : String) : Decidable (registered r n) :=
  List.decidableBEx _ r

/-- Modelled from the spec: lookup on `XSFunctionMap`.  Returns the entry for
the name, or fails with `NotFoundError` when absent. -/
def lookup (r : ModelFunctionMap) (n : String) :
    Except LookupError RegistryEntry :=
  match r.find? (fun e => e.name == n) with
  | some e => Except.ok e
  | none => Except.error LookupError.NotFoundError

/-- Modelled from the spec: dispatch looks up the entry for the name
(propagating `NotFoundError`) and selects the call adapter matching the
entry\x27s signature kind.  The adapter actually invoked is the observable we
verify; the numerical routine behind the handle is an external black box. -/
def dispatch (r : ModelFunctionMap) (n : String) :
    Except LookupError CallAdapter :=
  match lookup r n with
  | Except.ok e => Except.ok (adapterFor e.kind)
  | Except.error err => Except.error err

/-- Lookup together with the registry state after the call (lookup is
read-only, so the state is returned unchanged). -/
def lookupS (r : ModelFunctionMap) (n : String) :
    (Except LookupError RegistryEntry) × ModelFunctionMap :=
  (lookup r n, r)

/-- Dispatch together with the registry state after the call. -/
def dispatchS (r : ModelFunctionMap) (n : String) :
    (Except LookupError CallAdapter) × ModelFunctionMap :=
  (dispatch r n, r)

/-- Registry states reachable from the initial empty state via any sequence
of build, clear, lookup and dispatch calls (the latter two through their
state-passing forms). -/
inductive Reachable : ModelFunctionMap → Prop where
  | init : Reachable []
  | build {r : ModelFunctionMap} : Reachable r → Reachable (buildStep fixedEntries r)
  | clear {r : ModelFunctionMap} : Reachable r → Reachable (clearFunctionMap r)
  | look {r : ModelFunctionMap} (n : String) : Reachable r → Reachable (lookupS r n).2
  | disp {r : ModelFunctionMap} (n : String) : Reachable r → Reachable (dispatchS r n).2

/-- A sample entry of the first signature kind, from the header (line 24). -/
def apecE : RegistryEntry :=
  { name := "apec", kind := SigKind.XSCCall, handle := "apec" }

/-- A sample entry of the Fortran signature kind, from the header (line 23). -/
def agnsedE : RegistryEntry :=
  { name := "agnsed_", kind := SigKind.xsf77Call, handle := "agnsed_" }

/-- A sample entry of the third signature kind, from the header (line 51). -/
def compmagE : RegistryEntry :=
  { name := "xscompmag", kind := SigKind.xsccCall, handle := "xscompmag" }

set_option maxRecDepth 10000 in
set_option maxHeartbeats 4000000 in
theorem fixedNames_nodup : (fixedEntries.map RegistryEntry.name).Nodup := by
  have h : fixedEntries.map RegistryEntry.name = fixedList.map Prod.fst := by
    simp [fixedEntries, List.map_map]
  rw [h]
  decide

theorem buildStep_of_nodup {spec : List RegistryEntry}
    (hnd : (spec.map RegistryEntry.name).Nodup) (r : ModelFunctionMap) :
    buildStep spec r = spec := by
  unfold buildStep createFunctionMap
  rw [if_pos hnd]

theorem buildStep_fixed (r : ModelFunctionMap) :
    buildStep fixedEntries r = fixedEntries :=
  buildStep_of_nodup fixedNames_nodup r

theorem createFunctionMap_ok_inv {spec : List RegistryEntry}
    {r1 : ModelFunctionMap} (h : createFunctionMap spec = Except.ok r1) :
    (spec.map RegistryEntry.name).Nodup ∧ r1 = spec := by
  unfold createFunctionMap at h
  by_cases hnd : (spec.map RegistryEntry.name).Nodup
  · rw [if_pos hnd] at h
    refine ⟨hnd, ?_⟩
    injection h with h2
    exact h2.symm
  · rw [if_neg hnd] at h
    exact absurd h (by simp)

theorem find?_name_of_mem {l : List RegistryEntry}
    (hnd : (l.map RegistryEntry.name).Nodup)
    {e : RegistryEntry} (he : e ∈ l) :
    l.find? (fun x => x.name == e.name) = some e := by
  induction l with
  | nil => cases he
  | cons a t ih =>
    rw [List.map_cons, List.nodup_cons] at hnd
    rcases List.mem_cons.mp he with h | h
    · subst h
      exact List.find?_cons_of_pos _ (by simp)
    · have hmem : e.name ∈ t.map RegistryEntry.name := List.mem_map_of_mem _ h
      have hne : a.name ≠ e.name := by
        intro hEq
        rw [hEq] at hnd
        exact hnd.1 hmem
      rw [List.find?_cons_of_neg _ (by simp [hne])]
      exact ih hnd.2 h

theorem lookup_registered {r : ModelFunctionMap} {n : String}
    (h : registered r n) :
    ∃ e, lookup r n = Except.ok e ∧ e ∈ r ∧ e.name = n := by
  have h2 : ∃ e ∈ r, RegistryEntry.name e = n := h
  obtain ⟨e, he, hn⟩ := h2
  cases hfind : r.find? (fun x => x.name == n) with
  | none =>
    exfalso
    have := List.find?_eq_none.mp hfind e he
    simp [hn] at this
  | some e2 =>
    refine ⟨e2, ?_, List.mem_of_find?_eq_some hfind, ?_⟩
    · unfold lookup
      rw [hfind]
    · have := List.find?_some hfind
      simpa using this

theorem lookup_not_registered {r : ModelFunctionMap} {n : String}
    (h : ¬ registered r n) :
    lookup r n = Except.error LookupError.NotFoundError := by
  cases hfind : r.find? (fun x => x.name == n) with
  | none =>
    unfold lookup
    rw [hfind]
  | some e2 =>
    exfalso
    refine h ⟨e2, List.mem_of_find?_eq_some hfind, ?_⟩
    have := List.find?_some hfind
    simpa using this

/-- C1: every registry state reachable from the initial empty state through
any sequence of build, clear, lookup and dispatch calls is either empty or
exactly the full fixed set of entries; no partially populated state is
externally observable. -/
theorem c1_registry_empty_or_full (r : ModelFunctionMap) (h : Reachable r) :
    r = [] ∨ r = fixedEntries := by
  induction h with
  | init => exact Or.inl rfl
  | build _ _ => exact Or.inr (buildStep_fixed _)
  | clear _ _ => exact Or.inl rfl
  | look n _ ih => exact ih
  | disp n _ ih => exact ih

theorem c1_witness :
    buildStep fixedEntries [] = [] ∨ buildStep fixedEntries [] = fixedEntries :=
  c1_registry_empty_or_full _ (Reachable.build Reachable.init)

/-- C2: when the compiled-in list contains two entries at distinct positions
sharing a name, the build fails with DuplicateRegistrationError and the
externally observable registry state is unchanged (all-or-nothing build). -/
theorem c2_duplicate_build_fails (spec : List RegistryEntry)
    (r : ModelFunctionMap) (i j : Nat)
    (hi : i < spec.length) (hj : j < spec.length) (hij : i ≠ j)
    (hname : (spec.get ⟨i, hi⟩).name = (spec.get ⟨j, hj⟩).name) :
    createFunctionMap spec = Except.error BuildError.DuplicateRegistrationError ∧
    buildStep spec r = r := by
  have hdup : ¬ (spec.map RegistryEntry.name).Nodup := by
    intro hnd
    apply hij
    have hi2 : i < (spec.map RegistryEntry.name).length := by simpa using hi
    have hj2 : j < (spec.map RegistryEntry.name).length := by simpa using hj
    refine (@List.Nodup.getElem_inj_iff _ _ hnd i hi2 j hj2).mp ?_
    simpa using hname
  have h1 : createFunctionMap spec =
      Except.error BuildError.DuplicateRegistrationError := by
    unfold createFunctionMap
    rw [if_neg hdup]
  refine ⟨h1, ?_⟩
  unfold buildStep
  rw [h1]

theorem c2_witness :
    createFunctionMap [apecE, apecE] =
      Except.error BuildError.DuplicateRegistrationError ∧
    buildStep [apecE, apecE] [] = [] :=
  c2_duplicate_build_fails [apecE, apecE] [] 0 1 (by decide) (by decide)
    (by decide) (by decide)

/-- C3: a successful build produces exactly the canonical fully populated
set (with pairwise-distinct names, hence no duplicated entries), and calling
build again on that state yields the same canonical set. -/
theorem c3_rebuild_canonical (spec : List RegistryEntry)
    (r1 : ModelFunctionMap) (h : createFunctionMap spec = Except.ok r1) :
    r1 = spec ∧ buildStep spec r1 = spec ∧
    (r1.map RegistryEntry.name).Nodup := by
  obtain ⟨hnd, rfl⟩ := createFunctionMap_ok_inv h
  exact ⟨rfl, buildStep_of_nodup hnd _, hnd⟩

theorem c3_witness :
    ([apecE, agnsedE] : ModelFunctionMap) = [apecE, agnsedE] ∧
    buildStep [apecE, agnsedE] [apecE, agnsedE] = [apecE, agnsedE] ∧
    (([apecE, agnsedE] : ModelFunctionMap).map RegistryEntry.name).Nodup :=
  c3_rebuild_canonical [apecE, agnsedE] [apecE, agnsedE]
    (by unfold createFunctionMap; rw [if_pos (by decide)])

/-- C4: for every registry produced by a successful build, clear followed by
build restores a registry equal to the original built one (in particular the
same names mapped to the same kinds). -/
theorem c4_clear_build_roundtrip (spec : List RegistryEntry)
    (r1 : ModelFunctionMap) (h : createFunctionMap spec = Except.ok r1) :
    buildStep spec (clearFunctionMap r1) = r1 := by
  obtain ⟨hnd, rfl⟩ := createFunctionMap_ok_inv h
  exact buildStep_of_nodup hnd _

theorem c4_witness :
    buildStep [apecE, agnsedE] (clearFunctionMap [apecE, agnsedE]) =
      [apecE, agnsedE] :=
  c4_clear_build_roundtrip [apecE, agnsedE] [apecE, agnsedE]
    (by unfold createFunctionMap; rw [if_pos (by decide)])

/-- C5: lookup returns an entry carrying the requested name when the name is
registered and fails with NotFoundError when it is absent, and the registry
state after the call equals the state before it (read-only). -/
theorem c5_lookup_contract (r : ModelFunctionMap) (n : String) :
    (registered r n →
      ∃ e, lookup r n = Except.ok e ∧ e ∈ r ∧ e.name = n) ∧
    (¬ registered r n →
      lookup r n = Except.error LookupError.NotFoundError) ∧
    (lookupS r n).2 = r :=
  ⟨fun h => lookup_registered h, fun h => lookup_not_registered h, rfl⟩

theorem c5_witness :
    (∃ e, lookup [apecE] "apec" = Except.ok e ∧ e ∈ [apecE] ∧
      e.name = "apec") ∧
    lookup [apecE] "powerLaw" = Except.error LookupError.NotFoundError :=
  ⟨(c5_lookup_contract [apecE] "apec").1 ⟨apecE, by decide, by decide⟩,
   (c5_lookup_contract [apecE] "powerLaw").2.1 (by decide)⟩

/-- C6: dispatching a name that is not registered (in particular any name on
the empty registry) returns NotFoundError as a typed recoverable failure and
leaves the registry state unchanged; dispatch is a total function, so it can
neither raise an unrecoverable fault nor terminate the process. -/
theorem c6_dispatch_unregistered (r : ModelFunctionMap) (n : String)
    (h : ¬ registered r n) :
    dispatch r n = Except.error LookupError.NotFoundError ∧
    (dispatchS r n).2 = r := by
  refine ⟨?_, rfl⟩
  unfold dispatch
  rw [lookup_not_registered h]

theorem c6_witness :
    dispatch [] "powerLaw" = Except.error LookupError.NotFoundError ∧
    (dispatchS [] "powerLaw").2 = [] :=
  c6_dispatch_unregistered [] "powerLaw" (by decide)

/-- C7: for every entry registered by a successful build, lookup on its name
returns that very entry — whose kind is the kind declared for the name in
the compiled-in list — and dispatch on the name routes to the call adapter
associated with that kind. -/
theorem c7_lookup_dispatch_kind (spec : List RegistryEntry)
    (r1 : ModelFunctionMap) (h : createFunctionMap spec = Except.ok r1)
    (e : RegistryEntry) (he : e ∈ spec) :
    lookup r1 e.name = Except.ok e ∧
    dispatch r1 e.name = Except.ok (adapterFor e.kind) := by
  obtain ⟨hnd, hr⟩ := createFunctionMap_ok_inv h
  rw [hr]
  have hfind := find?_name_of_mem hnd he
  have hl : lookup spec e.name = Except.ok e := by
    unfold lookup
    rw [hfind]
  refine ⟨hl, ?_⟩
  unfold dispatch
  rw [hl]

theorem c7_witness :
    lookup [apecE, agnsedE, compmagE] agnsedE.name = Except.ok agnsedE ∧
    dispatch [apecE, agnsedE, compmagE] agnsedE.name =
      Except.ok (adapterFor agnsedE.kind) :=
  c7_lookup_dispatch_kind [apecE, agnsedE, compmagE]
    [apecE, agnsedE, compmagE]
    (by unfold createFunctionMap; rw [if_pos (by decide)])
    agnsedE (by decide)

/-- C8: clear is idempotent — on the empty registry it is a no-op, and for
every registry state clear after clear equals a single clear. -/
theorem c8_clear_idempotent (r : ModelFunctionMap) :
    clearFunctionMap ([] : ModelFunctionMap) = [] ∧
    clearFunctionMap (clearFunctionMap r) = clearFunctionMap r :=
  ⟨rfl, rfl⟩

/-- C9: after clear, lookup fails with NotFoundError for every name, those
registered before the clear included. -/
theorem c9_lookup_after_clear (r : ModelFunctionMap) (n : String) :
    lookup (clearFunctionMap r) n = Except.error LookupError.NotFoundError :=
  rfl

/-- C10: the names declared in the extern block of functionMap.h are
pairwise distinct, so for this concrete compiled-in list the
DuplicateRegistrationError branch of the build is unreachable: the build
always succeeds and, from any prior state, populates the full set. -/
theorem c10_fixed_names_distinct :
    (fixedEntries.map RegistryEntry.name).Nodup ∧
    createFunctionMap fixedEntries = Except.ok fixedEntries ∧
    ∀ r : ModelFunctionMap, buildStep fixedEntries r = fixedEntries := by
  refine ⟨fixedNames_nodup, ?_, buildStep_fixed⟩
  unfold createFunctionMap
  rw [if_pos fixedNames_nodup]

end FunctionMap
